import Mathlib

/-!
Verification development for the instance-execution core declared in
src/src/backend_model_instance.h (triton-core).

The file embeds, in order:
* `Signature` — TritonModelInstance::Signature (header lines 61-87), with the
  instance-group configuration type and the structural-equivalence predicate
  `EquivalentInInstanceConfig` (declared in model_config_utils.h, outside the
  sources given) kept abstract as parameters;
* `WarmupData` — TritonModelInstance::WarmupData (header lines 157-174);
* spec-modelled transition functions for `SetInstances`, `Schedule`/backend
  dispatch, and the backend thread stop protocol, whose bodies are not among
  the given sources (only their declarations are in the header).
-/

namespace TritonCore

/-- Embedding of TritonModelInstance::Signature (header lines 61-87).
`γ` stands for inference::ModelInstanceGroup, which is opaque to this header:
the signature stores it, a device id (int32_t) and the mutable matchable flag. -/
structure Signature (γ : Type) where
  group_config_ : γ
  device_id_ : Int
  can_match_ : Bool
  deriving DecidableEq

/-- The Signature constructor (header lines 63-67): stores the configuration and
device id and initializes can_match_ to true. -/
def Signature.construct {γ : Type} (group_config : γ) (device_id : Int) : Signature γ :=
  { group_config_ := group_config, device_id_ := device_id, can_match_ := true }

/-- operator== (header lines 70-74): true iff both sides can match, device ids are
equal, and the configurations are equivalent under EquivalentInInstanceConfig.
The equivalence predicate is defined outside the given sources, so it is passed
as the parameter `equiv`. -/
def Signature.beq {γ : Type} (equiv : γ → γ → Bool) (lhs rhs : Signature γ) : Bool :=
  lhs.can_match_ && rhs.can_match_ && (lhs.device_id_ == rhs.device_id_) &&
    equiv lhs.group_config_ rhs.group_config_

/-- operator!= (header line 75): the boolean negation of operator==. -/
def Signature.bne {γ : Type} (equiv : γ → γ → Bool) (lhs rhs : Signature γ) : Bool :=
  !(Signature.beq equiv lhs rhs)

/-- EnableMatching (header line 80): sets can_match_ to true. -/
def Signature.EnableMatching {γ : Type} (s : Signature γ) : Signature γ :=
  { s with can_match_ := true }

/-- DisableMatching (header line 81): sets can_match_ to false. -/
def Signature.DisableMatching {γ : Type} (s : Signature γ) : Signature γ :=
  { s with can_match_ := false }

/-- Embedding of TritonModelInstance::WarmupData (header lines 157-174).
`ρ` stands for the opaque InferenceRequest type; the request vector and data
buffers are default-constructed empty by the constructor, so only the fields
the constructor touches plus the request vector are carried. -/
structure WarmupData (ρ : Type) where
  sample_name_ : String
  count_ : Nat
  requests_ : List ρ
  deriving DecidableEq

/-- The WarmupData constructor (header lines 158-161): stores the sample name and
sets count_ to std::max(count, size_t 1); the request vector starts empty. -/
def WarmupData.construct (ρ : Type) (sample_name : String) (count : Nat) : WarmupData ρ :=
  { sample_name_ := sample_name, count_ := max count 1, requests_ := [] }

/-- Modelled from the spec: the body of TritonModelInstance::SetInstances is not
among the given sources (the header only declares it, lines 89-93). Result of a
SetInstances call: the returned status (none = success), the instances left
running, and the instances torn down during error cleanup (spec section 4.5 and
section 7). -/
structure SetResult (ε ι : Type) where
  status : Option ε
  running : List ι
  torn_down : List ι
  deriving DecidableEq

/-- Modelled from the spec: the SetInstances loop walks the expanded instance
specs in order; `create` stands for per-instance construction plus
initialization. On the first failure the call stops, tears down every
thread/instance pair created so far (in reverse creation order) and returns the
originating status; on success all created instances are left running
(spec section 4.5: partial instance sets are not left running). -/
def setInstancesLoop {α ε ι : Type} (create : α → Except ε ι) :
    List α → List ι → SetResult ε ι
  | [], made => { status := none, running := made, torn_down := [] }
  | a :: rest, made =>
    match create a with
    | Except.ok inst => setInstancesLoop create rest (made ++ [inst])
    | Except.error e => { status := some e, running := [], torn_down := made.reverse }

/-- Modelled from the spec: SetInstances starts from an empty instance set and
runs the construction loop over the expanded specs. -/
def SetInstances {α ε ι : Type} (create : α → Except ε ι) (specs : List α) : SetResult ε ι :=
  setInstancesLoop create specs []

/-- The instances successfully created for a list of specs, in creation order. -/
def createdOf {α ε ι : Type} (create : α → Except ε ι) (specs : List α) : List ι :=
  specs.filterMap (fun a => (create a).toOption)

/-- Modelled from the spec: the body of TritonModelInstance::Schedule is not
among the given sources (header lines 118-120 only declare it). Schedule
enqueues the request batch at the back of the instance's work queue
(triton::common::SyncQueue FIFO semantics, spec section 5). -/
def Schedule {ρ : Type} (queue : List (List ρ)) (requests : List ρ) : List (List ρ) :=
  queue ++ [requests]

/-- Modelled from the spec: the backend thread loop drains the instance's work
queue from the front, handing each dequeued batch to the backend execution
call; the returned list is the order in which the execution call observes the
requests (spec sections 4.3 and 5). -/
def backendDrain {ρ : Type} : List (List ρ) → List ρ → List ρ
  | [], executed => executed
  | batch :: rest, executed => backendDrain rest (executed ++ batch)

/-- Modelled from the spec: events seen by a backend thread, in real-time order:
a Schedule call delivering a batch of requests, or the StopBackendThread call
setting the exit flag (header lines 137-154 declare the thread but its loop is
not among the given sources). -/
inductive ThreadEvent (ρ : Type) where
  | sched (requests : List ρ) : ThreadEvent ρ
  | stop : ThreadEvent ρ
  deriving DecidableEq

/-- Modelled from the spec: the backend thread loop checks the exit flag between
dequeued units of work and exits once it is set; work scheduled while the flag
is set is never dequeued. The function returns the requests the backend
execution call observes; its totality models that the loop terminates after
StopBackendThread, so the destructor's join completes (spec section 4.3). -/
def backendThreadRun {ρ : Type} : Bool → List (ThreadEvent ρ) → List ρ
  | true, _ => []
  | false, [] => []
  | false, ThreadEvent.sched requests :: rest => requests ++ backendThreadRun false rest
  | false, ThreadEvent.stop :: rest => backendThreadRun true rest

theorem backendThreadRun_exit {ρ : Type} (events : List (ThreadEvent ρ)) :
    backendThreadRun true events = [] := by
  cases events with
  | nil => rfl
  | cons e rest => cases e <;> rfl

theorem backendDrain_log {ρ : Type} (queue : List (List ρ)) (executed : List ρ) :
    backendDrain queue executed = executed ++ queue.flatten := by
  induction queue generalizing executed with
  | nil => simp [backendDrain]
  | cons batch rest ih => simp [backendDrain, ih]

theorem foldl_Schedule {ρ : Type} (batches : List (List ρ)) (queue : List (List ρ)) :
    List.foldl Schedule queue batches = queue ++ batches := by
  induction batches generalizing queue with
  | nil => simp
  | cons b rest ih => simp [Schedule, ih]

theorem setInstancesLoop_error {α ε ι : Type} (create : α → Except ε ι)
    (pre post : List α) (a : α) (e : ε) (made : List ι)
    (hpre : ∀ b ∈ pre, ∃ i, create b = Except.ok i) (ha : create a = Except.error e) :
    setInstancesLoop create (pre ++ a :: post) made =
      { status := some e, running := [],
        torn_down := (made ++ createdOf create pre).reverse } := by
  induction pre generalizing made with
  | nil => simp [setInstancesLoop, ha, createdOf]
  | cons b rest ih =>
    obtain ⟨i, hi⟩ := hpre b (by simp)
    have hrest : ∀ x ∈ rest, ∃ j, create x = Except.ok j := by
      intro x hx
      exact hpre x (by simp [hx])
    have hstep : setInstancesLoop create ((b :: rest) ++ a :: post) made =
        setInstancesLoop create (rest ++ a :: post) (made ++ [i]) := by
      simp [setInstancesLoop, hi]
    rw [hstep, ih (made ++ [i]) hrest]
    simp [createdOf, hi, Except.toOption]

/-- C4: if construction or initialization of one instance fails during
SetInstances — every spec before it succeeds, spec `a` fails with status `e` —
then the whole call returns that originating status, leaves no instance
running, and tears down every instance created earlier in the same call
(in reverse creation order). -/
theorem setInstances_atomic {α ε ι : Type} (create : α → Except ε ι)
    (pre post : List α) (a : α) (e : ε)
    (hpre : ∀ b ∈ pre, ∃ i, create b = Except.ok i) (ha : create a = Except.error e) :
    (SetInstances create (pre ++ a :: post)).status = some e ∧
      (SetInstances create (pre ++ a :: post)).running = [] ∧
      (SetInstances create (pre ++ a :: post)).torn_down =
        (createdOf create pre).reverse := by
  have h := setInstancesLoop_error create pre post a e [] hpre ha
  unfold SetInstances
  rw [h]
  simp

/-- C4 witness: a concrete SetInstances run where the third spec fails returns
the originating status, leaves nothing running, and tears down the two
instances created before the failure. -/
theorem setInstances_atomic_witness :
    (SetInstances (fun n : Nat => if n == 0 then Except.error "boom" else Except.ok (n * 10))
          ([1, 2] ++ 0 :: [3])).status = some "boom" ∧
      (SetInstances (fun n : Nat => if n == 0 then Except.error "boom" else Except.ok (n * 10))
          ([1, 2] ++ 0 :: [3])).running = [] ∧
      (SetInstances (fun n : Nat => if n == 0 then Except.error "boom" else Except.ok (n * 10))
          ([1, 2] ++ 0 :: [3])).torn_down =
        (createdOf (fun n : Nat => if n == 0 then Except.error "boom" else Except.ok (n * 10))
          [1, 2]).reverse :=
  setInstances_atomic (fun n : Nat => if n == 0 then Except.error "boom" else Except.ok (n * 10))
    [1, 2] [3] 0 "boom"
    (by
      intro b hb
      simp only [List.mem_cons, List.not_mem_nil, or_false] at hb
      rcases hb with rfl | rfl
      · exact ⟨10, rfl⟩
      · exact ⟨20, rfl⟩)
    rfl

/-- C5: requests scheduled to one instance are observed by the backend execution
call in exactly the order Schedule was called: draining the queue built by the
Schedule calls for batches b1, ..., bn yields their requests flattened in that
order (FIFO per instance). -/
theorem schedule_fifo {ρ : Type} (batches : List (List ρ)) :
    backendDrain (List.foldl Schedule ([] : List (List ρ)) batches) [] =
      batches.flatten := by
  rw [foldl_Schedule, backendDrain_log]
  simp

/-- C5 witness: three concrete scheduled batches are executed in schedule
order. -/
theorem schedule_fifo_witness :
    backendDrain (List.foldl Schedule ([] : List (List Nat)) [[1, 2], [3], [4, 5]]) [] =
      [1, 2, 3, 4, 5] :=
  (schedule_fifo [[1, 2], [3], [4, 5]]).trans rfl

/-- C6: once the StopBackendThread event has been processed, the backend thread
executes no request from any Schedule call issued afterwards — the executed
trace is the same as if the thread had been destroyed right after the stop
(the run function being total models the loop exiting so the join in the
destructor completes). -/
theorem stop_prevents_later_schedule {ρ : Type} (pre post : List (ThreadEvent ρ)) :
    backendThreadRun false (pre ++ ThreadEvent.stop :: post) =
      backendThreadRun false (pre ++ [ThreadEvent.stop]) := by
  induction pre with
  | nil => simp [backendThreadRun, backendThreadRun_exit]
  | cons e rest ih => cases e <;> simp [backendThreadRun, backendThreadRun_exit, ih]

/-- C6 witness: a batch scheduled after the stop event is never executed; the
trace with it equals the trace that ends at the stop. -/
theorem stop_prevents_later_schedule_witness :
    backendThreadRun false
        ([ThreadEvent.sched [1, 2]] ++ ThreadEvent.stop :: [ThreadEvent.sched [9]]) =
      backendThreadRun false ([ThreadEvent.sched ([1, 2] : List Nat)] ++ [ThreadEvent.stop]) :=
  stop_prevents_later_schedule [ThreadEvent.sched [1, 2]] [ThreadEvent.sched [9]]

/-- C1: operator== returns true iff both signatures are matchable, their device
ids are equal, and their configurations are equivalent under the (abstract)
EquivalentInInstanceConfig predicate. -/
theorem signature_beq_iff {γ : Type} (equiv : γ → γ → Bool) (s t : Signature γ) :
    Signature.beq equiv s t = true ↔
      (s.can_match_ = true ∧ t.can_match_ = true ∧ s.device_id_ = t.device_id_ ∧
        equiv s.group_config_ t.group_config_ = true) := by
  simp [Signature.beq, Bool.and_eq_true, and_assoc]

/-- C1 witness: two concrete matchable signatures with equal device id and
equivalent configuration compare equal. -/
theorem signature_beq_iff_witness :
    Signature.beq (fun a b : Nat => a == b)
      (Signature.construct 3 1) (Signature.construct 3 1) = true :=
  (signature_beq_iff (fun a b : Nat => a == b)
      (Signature.construct 3 1) (Signature.construct 3 1)).mpr
    ⟨rfl, rfl, rfl, by decide⟩

/-- C2: once DisableMatching has been called on a signature, operator== returns
false against every signature, in both argument orders, for every equivalence
predicate (so also against itself and against a structurally identical fresh
signature). -/
theorem signature_disable_ne_all {γ : Type} (equiv : γ → γ → Bool) (s t : Signature γ) :
    Signature.beq equiv (Signature.DisableMatching s) t = false ∧
      Signature.beq equiv t (Signature.DisableMatching s) = false := by
  constructor <;> simp [Signature.beq, Signature.DisableMatching]

/-- C2 witness: a concrete disabled signature compares unequal, in both orders,
to a structurally identical fresh signature. -/
theorem signature_disable_ne_all_witness :
    Signature.beq (fun a b : Nat => a == b)
        (Signature.DisableMatching (Signature.construct 4 1)) (Signature.construct 4 1)
      = false ∧
      Signature.beq (fun a b : Nat => a == b)
        (Signature.construct 4 1) (Signature.DisableMatching (Signature.construct 4 1))
      = false :=
  signature_disable_ne_all (fun a b : Nat => a == b)
    (Signature.construct 4 1) (Signature.construct 4 1)

/-- C3: the WarmupData constructor floors the request count at 1, so count 0
produces exactly the same WarmupData as count 1. -/
theorem warmup_count_floor (ρ : Type) (sample_name : String) (count : Nat) :
    (WarmupData.construct ρ sample_name count).count_ = max count 1 ∧
      WarmupData.construct ρ sample_name 0 = WarmupData.construct ρ sample_name 1 := by
  refine ⟨rfl, ?_⟩
  simp [WarmupData.construct]

/-- C3 witness: at a concrete sample, count 0 and count 1 give the same
WarmupData, with count_ = 1. -/
theorem warmup_count_floor_witness :
    (WarmupData.construct Unit "sample" 0).count_ = max 0 1 ∧
      WarmupData.construct Unit "sample" 0 = WarmupData.construct Unit "sample" 1 :=
  warmup_count_floor Unit "sample" 0

/-- C7: EnableMatching and DisableMatching leave the device id and the
instance-group configuration of a signature unchanged. -/
theorem matching_toggle_frame {γ : Type} (s : Signature γ) :
    (Signature.EnableMatching s).device_id_ = s.device_id_ ∧
      (Signature.EnableMatching s).group_config_ = s.group_config_ ∧
      (Signature.DisableMatching s).device_id_ = s.device_id_ ∧
      (Signature.DisableMatching s).group_config_ = s.group_config_ :=
  ⟨rfl, rfl, rfl, rfl⟩

/-- C7 witness: the frame property at a concrete signature. -/
theorem matching_toggle_frame_witness :
    (Signature.EnableMatching (Signature.construct (9 : Nat) 2)).device_id_ =
        (Signature.construct (9 : Nat) 2).device_id_ ∧
      (Signature.EnableMatching (Signature.construct (9 : Nat) 2)).group_config_ =
        (Signature.construct (9 : Nat) 2).group_config_ ∧
      (Signature.DisableMatching (Signature.construct (9 : Nat) 2)).device_id_ =
        (Signature.construct (9 : Nat) 2).device_id_ ∧
      (Signature.DisableMatching (Signature.construct (9 : Nat) 2)).group_config_ =
        (Signature.construct (9 : Nat) 2).group_config_ :=
  matching_toggle_frame (Signature.construct (9 : Nat) 2)

/-- C8: a freshly constructed signature has can_match_ = true, so two fresh
signatures with the same device id and equivalent configurations compare equal
without any prior EnableMatching call. -/
theorem fresh_signature_matchable {γ : Type} (equiv : γ → γ → Bool) (g h : γ) (d : Int)
    (heq : equiv g h = true) :
    (Signature.construct g d).can_match_ = true ∧
      Signature.beq equiv (Signature.construct g d) (Signature.construct h d) = true := by
  refine ⟨rfl, ?_⟩
  simp [Signature.beq, Signature.construct, heq]

/-- C8 witness: two fresh concrete signatures with equal device id and
equivalent configuration compare equal. -/
theorem fresh_signature_matchable_witness :
    ((fun a b : Nat => a == b) 5 5 = true) ∧
      ((Signature.construct (5 : Nat) 0).can_match_ = true ∧
        Signature.beq (fun a b : Nat => a == b)
          (Signature.construct 5 0) (Signature.construct 5 0) = true) :=
  ⟨by decide, fresh_signature_matchable (fun a b : Nat => a == b) 5 5 0 (by decide)⟩

/-- C9: operator!= returns true exactly when operator== returns false. -/
theorem signature_bne_iff {γ : Type} (equiv : γ → γ → Bool) (s t : Signature γ) :
    Signature.bne equiv s t = true ↔ Signature.beq equiv s t = false := by
  simp [Signature.bne]

/-- C9 witness: at a concrete unequal pair, operator!= is true and operator== is
false. -/
theorem signature_bne_iff_witness :
    Signature.bne (fun a b : Nat => a == b)
        (Signature.construct 1 0) (Signature.construct 2 0) = true :=
  (signature_bne_iff (fun a b : Nat => a == b)
      (Signature.construct 1 0) (Signature.construct 2 0)).mpr (by decide)

/-- C10 counterexample: for a signature that is already unmatchable,
DisableMatching followed by EnableMatching does NOT restore the prior state —
the round trip leaves the flag true where it was false. -/
theorem matching_roundtrip_counterexample :
    ¬ (Signature.EnableMatching (Signature.DisableMatching
          (Signature.DisableMatching (Signature.construct (0 : Nat) 0))) =
        Signature.DisableMatching (Signature.construct (0 : Nat) 0)) := by
  decide

/-- C10 (amended): for every signature whose matchable flag is true — as every
freshly constructed signature is — DisableMatching followed by EnableMatching
restores the signature exactly to its prior state, so every subsequent equality
comparison behaves as before the DisableMatching call. -/
theorem matching_roundtrip_restores {γ : Type} (s : Signature γ)
    (h : s.can_match_ = true) :
    Signature.EnableMatching (Signature.DisableMatching s) = s := by
  cases s with
  | mk g d c =>
    cases h
    rfl

/-- C10 witness: the round trip restores a concrete fresh signature exactly. -/
theorem matching_roundtrip_restores_witness :
    ((Signature.construct (5 : Nat) 2).can_match_ = true) ∧
      Signature.EnableMatching (Signature.DisableMatching (Signature.construct (5 : Nat) 2)) =
        Signature.construct (5 : Nat) 2 :=
  ⟨rfl, matching_roundtrip_restores (Signature.construct (5 : Nat) 2) rfl⟩

end TritonCore
